import Mathlib

/-!
Verification development for the e-learning analytics dashboards.

The repository consists of three Streamlit dashboards over static course
tables.  The algorithmic core (metric derivation, filtering, KPI
aggregation, least-squares trend fitting, z-score anomaly detection,
outbound alerting) is embedded shallowly below, one namespace per source
file:

* `ELearning`   — `elearning_analysis.py` (metric deriver, filter, KPIs)
* `CompactApp`  — `streamlit_app.py` (ROI synthesis, subject filter)
* `Forecasting` — `forecasting_simple.py` (trend fit, anomaly detector, alert)

Float computations are modelled over `ℚ` wherever the source computes a
rational expression; the standard deviation (which introduces a square
root) is modelled over `ℝ`.  A pandas aggregate that yields `NaN` (mean
of an empty series) is modelled as `Option ℚ` with `none` standing for
`NaN`.  Code that raises (`iloc[0]` on an empty frame) is modelled with
`Option`, `none` standing for the raised `IndexError`.
-/

namespace ELearning

/-- One row of `fraunhofer_dashboard_data.csv` as used by
`elearning_analysis.py`: course name, price, participants, revenue,
satisfaction (0–5) and review count. -/
structure Course where
  course_name : String
  price : ℚ
  participants : ℕ
  revenue : ℚ
  satisfaction : ℚ
  num_reviews : ℕ
deriving DecidableEq

/-- `df["revenue_per_participant"] = np.where(df["participants"] > 0,
df["revenue"] / df["participants"], 0.0)` — the ratio with a zero
denominator replaced by `0.0`.  Total on `ℚ`, so no `NaN`/infinity can
arise. -/
def revenue_per_participant (c : Course) : ℚ :=
  if 0 < c.participants then c.revenue / (c.participants : ℚ) else 0

/-- `df["satisfaction_score"] = df["satisfaction"] / 5`. -/
def satisfaction_score (c : Course) : ℚ :=
  c.satisfaction / 5

/-- pandas `Series.rank(pct=True)` with the default `method="average"`:
the value's average rank among the column's values, divided by the row
count.  A value `x` with `a` strictly smaller entries and `t` equal
entries occupies the ranks `a+1 … a+t`, whose average is `a + (t+1)/2`. -/
def rankPct (xs : List ℚ) (x : ℚ) : ℚ :=
  (((xs.filter (fun y => y < x)).length : ℚ)
      + (((xs.filter (fun y => y = x)).length : ℚ) + 1) / 2)
    / (xs.length : ℚ)

/-- `df["adoption_score"] = df["participants"].rank(pct=True)`, ranks taken
over the whole loaded table `t`. -/
def adoption_score (t : List Course) (c : Course) : ℚ :=
  rankPct (t.map (fun d => (d.participants : ℚ))) (c.participants : ℚ)

/-- `df["engagement_score"] = df["num_reviews"].rank(pct=True)`. -/
def engagement_score (t : List Course) (c : Course) : ℚ :=
  rankPct (t.map (fun d => (d.num_reviews : ℚ))) (c.num_reviews : ℚ)

/-- `df["PES"] = (adoption_score + engagement_score + satisfaction_score)/3`. -/
def PES (t : List Course) (c : Course) : ℚ :=
  (adoption_score t c + engagement_score t c + satisfaction_score c) / 3

/-- A row after `load_data` has attached the derived columns. -/
structure DRow where
  course_name : String
  price : ℚ
  participants : ℕ
  revenue : ℚ
  satisfaction : ℚ
  num_reviews : ℕ
  revenue_per_participant : ℚ
  satisfaction_score : ℚ
  adoption_score : ℚ
  engagement_score : ℚ
  PES : ℚ
deriving DecidableEq

/-- The derived columns of one row, computed against the whole table `t`
(the rank columns are table-relative). -/
def derive (t : List Course) (c : Course) : DRow :=
  { course_name := c.course_name
    price := c.price
    participants := c.participants
    revenue := c.revenue
    satisfaction := c.satisfaction
    num_reviews := c.num_reviews
    revenue_per_participant := revenue_per_participant c
    satisfaction_score := satisfaction_score c
    adoption_score := adoption_score t c
    engagement_score := engagement_score t c
    PES := PES t c }

/-- `load_data()` of `elearning_analysis.py`: read the table and add the
derived columns of section 3 of that file. -/
def load_data (t : List Course) : List DRow :=
  t.map (derive t)

/-- pandas `Series.between(lo, hi)` with the default `inclusive="both"`. -/
def between (v lo hi : ℚ) : Bool :=
  decide (lo ≤ v) && decide (v ≤ hi)

/-- The row predicate of the sidebar filter:
`df["price"].between(*price_range) & df["satisfaction"].between(*satisfaction_range)`. -/
def passFilter (pr sr : ℚ × ℚ) (c : DRow) : Bool :=
  between c.price pr.1 pr.2 && between c.satisfaction sr.1 sr.2

/-- `df_filtered = df[df["price"].between(*price_range)
& df["satisfaction"].between(*satisfaction_range)]`. -/
def df_filtered (t : List DRow) (pr sr : ℚ × ℚ) : List DRow :=
  t.filter (passFilter pr sr)

/-- pandas `Series.mean()`: the arithmetic mean, `NaN` on an empty series.
`none` models the `NaN` result. -/
def seriesMean (xs : List ℚ) : Option ℚ :=
  if xs.length = 0 then none else some (xs.sum / (xs.length : ℚ))

/-- `total_revenue = df_filtered["revenue"].sum()` (the sum of an empty
series is `0` in pandas). -/
def total_revenue (t : List DRow) : ℚ :=
  (t.map (fun c => c.revenue)).sum

/-- `total_participants = df_filtered["participants"].sum()`. -/
def total_participants (t : List DRow) : ℕ :=
  (t.map (fun c => c.participants)).sum

/-- `avg_satisfaction = df_filtered["satisfaction"].mean()` (`none` = `NaN`
when the filtered table is empty; the app renders it as the text "nan"
inside the KPI card). -/
def avg_satisfaction (t : List DRow) : Option ℚ :=
  seriesMean (t.map (fun c => c.satisfaction))

/-- `avg_roi = df_filtered["revenue_per_participant"].mean()`. -/
def avg_roi (t : List DRow) : Option ℚ :=
  seriesMean (t.map (fun c => c.revenue_per_participant))

/-- `avg_PES = df_filtered["PES"].mean()`. -/
def avg_PES (t : List DRow) : Option ℚ :=
  seriesMean (t.map (fun c => c.PES))

/-- Modelled from the spec: "rank(x) = (fraction of rows with value ≤ x)".
This is the spec's wording for the percentile rank, written here only to
be compared with the source's `rankPct`. -/
def fracLE (xs : List ℚ) (x : ℚ) : ℚ :=
  ((xs.filter (fun y => y ≤ x)).length : ℚ) / (xs.length : ℚ)

/-- A one-course table whose single course has price 100, used to exercise
the empty-filter behaviour. -/
def exampleTable : List DRow :=
  load_data [⟨"A", 100, 10, 1000, 4, 5⟩]

/-- First row of a two-course table in which both courses have exactly 5
participants (a tie in the participants column). -/
def tieA : Course :=
  ⟨"A", 10, 5, 100, 4, 3⟩

/-- Second row of the tied table. -/
def tieB : Course :=
  ⟨"B", 20, 5, 200, 3, 3⟩

/-- A table with a participants tie, exercising average-rank tie handling. -/
def tieTable : List Course :=
  [tieA, tieB]

/-- The specification's single-row example: participants 0, revenue 100. -/
def soloCourse : Course :=
  ⟨"Solo", 0, 0, 100, 4, 0⟩

/-- The single-row table around `soloCourse`. -/
def soloTable : List Course :=
  [soloCourse]

end ELearning

namespace CompactApp

/-- One row of `fraunhofer_enriched.csv` as consumed by `streamlit_app.py`,
in the case where the file carries no "ROI" column. -/
structure RawRow where
  course_name : String
  subject : String
  price : ℚ
  participants : ℕ
  revenue : ℚ
  satisfaction : ℚ
deriving DecidableEq

/-- A row after `load_data` has synthesized `program_cost` and `ROI`. -/
structure Row where
  course_name : String
  subject : String
  price : ℚ
  participants : ℕ
  revenue : ℚ
  satisfaction : ℚ
  program_cost : ℚ
  ROI : ℚ
deriving DecidableEq

/-- The seed literal of `np.random.default_rng(42)`. -/
def rngSeed : ℕ := 42

/-- Lower bound of the uniform draw `rng.uniform(0.4, 0.7, len(df))`. -/
def fracLo : ℚ := 2 / 5

/-- Upper bound of the uniform draw `rng.uniform(0.4, 0.7, len(df))`. -/
def fracHi : ℚ := 7 / 10

/-- One row of the synthesis executed when `"ROI" not in df.columns`:
`program_cost = revenue * u` for this row's uniform draw `u`, then
`ROI = (revenue - program_cost) / program_cost`. -/
def synthRow (u : ℚ) (r : RawRow) : Row :=
  { course_name := r.course_name
    subject := r.subject
    price := r.price
    participants := r.participants
    revenue := r.revenue
    satisfaction := r.satisfaction
    program_cost := r.revenue * u
    ROI := (r.revenue - r.revenue * u) / (r.revenue * u) }

/-- Row-wise synthesis, `u i` standing for the i-th draw of the uniform
stream produced by `np.random.default_rng(rngSeed)` (the PCG64 bit stream
itself is abstracted as the function `u`). -/
def synthRows (u : ℕ → ℚ) : ℕ → List RawRow → List Row
  | _, [] => []
  | i, r :: rs => synthRow (u i) r :: synthRows u (i + 1) rs

/-- `df["program_cost"] = df["revenue"] * rng.uniform(0.4, 0.7, len(df))`
and `df["ROI"] = (df["revenue"] - df["program_cost"]) / df["program_cost"]`. -/
def withSyntheticROI (u : ℕ → ℚ) (raw : List RawRow) : List Row :=
  synthRows u 0 raw

/-- `load_data()` of `streamlit_app.py` for a csv with no "ROI" column:
synthesize `program_cost`/`ROI`, then drop the rows whose subject is
"Other" (`df = df[df["subject"] != "Other"].copy()`). -/
def load_data (u : ℕ → ℚ) (raw : List RawRow) : List Row :=
  (withSyntheticROI u raw).filter (fun r => r.subject ≠ "Other")

/-- The sidebar subject filter: `df_filtered = df.copy()` when "All" is
selected, else
`df_filtered = df_filtered[df_filtered["subject"] == selected_subject]`. -/
def df_filtered (sel : String) (rows : List Row) : List Row :=
  if sel = "All" then rows else rows.filter (fun r => r.subject = sel)

/-- `total_revenue = df_filtered["revenue"].sum()`, the first KPI computed
over the filtered table; every KPI, grouping and chart of the page reads
`df_filtered` (or `df`, which already excludes "Other"). -/
def total_revenue (rows : List Row) : ℚ :=
  (rows.map (fun r => r.revenue)).sum

/-- A one-row raw table with subject "Python", used as witness input. -/
def exampleRaw : RawRow :=
  ⟨"A", "Python", 10, 5, 100, 4⟩

end CompactApp

namespace Forecasting

/-- `mean_rev = ts["revenue"].mean()` over the selected course's monthly
revenue series (the series is non-empty whenever the page runs: the
course selector only offers names present in the csv). -/
def mean_rev (ys : List ℚ) : ℚ :=
  ys.sum / (ys.length : ℚ)

/-- The square of pandas `Series.std()` with its default `ddof=1`: the
sum of squared deviations from the mean divided by `n - 1` (sample
variance).  For `n ≤ 1` pandas yields `NaN`; here the `ℚ` division by
zero yields `0`, which sends `std_rev` to its fallback branch and leaves
the anomaly flag `False`, the same flag pandas produces. -/
def sampleVar (ys : List ℚ) : ℚ :=
  ((ys.map (fun y => (y - mean_rev ys) ^ 2)).sum) / ((ys.length - 1 : ℕ) : ℚ)

/-- `ts["revenue"].std()`: the sample standard deviation (square root of
the `ddof=1` variance). -/
noncomputable def ts_std (ys : List ℚ) : ℝ :=
  Real.sqrt ((sampleVar ys : ℚ) : ℝ)

open Classical in
/-- `std_rev = ts["revenue"].std() if ts["revenue"].std() != 0 else 1` —
a zero standard deviation (constant series) is replaced by 1. -/
noncomputable def std_rev (ys : List ℚ) : ℝ :=
  if ts_std ys ≠ 0 then ts_std ys else 1

/-- `ts["z_score"] = (ts["revenue"] - mean_rev) / std_rev` at row `i`
(`getD i 0` is the i-th series value; every use below stays in range). -/
noncomputable def z_score (ys : List ℚ) (i : ℕ) : ℝ :=
  ((ys.getD i 0 - mean_rev ys : ℚ) : ℝ) / std_rev ys

/-- `ts["anomaly"] = ts["z_score"].abs() > 2`. -/
def anomaly (ys : List ℚ) (i : ℕ) : Prop :=
  2 < |z_score ys i|

/-- `last_is_anomaly = ts["anomaly"].iloc[-1]` — the flag of the most
recent month. -/
def last_is_anomaly (ys : List ℚ) : Prop :=
  anomaly ys (ys.length - 1)

/-- `diff_pct = (last_rev - avg_rev) / avg_rev * 100`, the percentage
deviation of the last month from the series mean. -/
def diff_pct (ys : List ℚ) : ℚ :=
  (ys.getD (ys.length - 1) 0 - mean_rev ys) / mean_rev ys * 100

/-- The directional label: `"Revenue dropped significantly"` when
`diff_pct < 0`, else `"Revenue spiked unexpectedly"`. -/
def direction (ys : List ℚ) : String :=
  if diff_pct ys < 0 then "Revenue dropped significantly"
  else "Revenue spiked unexpectedly"

/-- The 5-month example series of the specification. -/
def exampleSeries : List ℚ :=
  [100, 100, 100, 100, 500]

/-- A two-point series with nonzero variance, used as witness input. -/
def pairSeries : List ℚ :=
  [0, 2]

/-- `np.polyfit(x, y, 1)` for `x = 0, 1, …, n-1`: the ordinary
least-squares slope and intercept. -/
def polyfit1 (ys : List ℚ) : ℚ × ℚ :=
  let n : ℚ := (ys.length : ℚ)
  let xs : List ℚ := (List.range ys.length).map (fun i => (i : ℚ))
  let sx := xs.sum
  let sy := ys.sum
  let sxx := (xs.map (fun x => x * x)).sum
  let sxy := ((xs.zip ys).map (fun p => p.1 * p.2)).sum
  let slope := (n * sxy - sx * sy) / (n * sxx - sx * sx)
  (slope, (sy - slope * sx) / n)

/-- The slope/intercept block of `forecasting_simple.py`:
`np.polyfit(x, y, 1)` when `len(ts) > 1`, else
`slope, intercept = 0, ts["revenue"].iloc[0]`.  On an empty series
`iloc[0]` raises `IndexError`, modelled by `none` (via `head?`). -/
def slopeIntercept (ys : List ℚ) : Option (ℚ × ℚ) :=
  if 1 < ys.length then some (polyfit1 ys)
  else ys.head?.map (fun v => ((0 : ℚ), v))

/-- `send_slack_alert(msg_text)` performs
`requests.post(SLACK_WEBHOOK_URL, json=payload)` and inspects nothing:
the `Response` object is discarded, no `raise_for_status`, no status
check.  The argument is the environmental outcome of the POST — either a
raised exception (network failure, as `Except.error`) or an HTTP status
code (as `Except.ok`) — and the result is that same outcome with the
response discarded. -/
def send_slack_alert (post : Except String ℕ) : Except String Unit :=
  post.map (fun _ => ())

/-- The body of the "Send Slack Alert" button: call `send_slack_alert` and
then unconditionally `st.success("Slack alert sent successfully!")`.  An
exception from the POST propagates out of the handler (aborting the
script run with a traceback); any HTTP status, 2xx or not, reaches the
success message. -/
def alert_flow (post : Except String ℕ) : Except String String :=
  match send_slack_alert post with
  | Except.error e => Except.error e
  | Except.ok _ => Except.ok "Slack alert sent successfully!"

end Forecasting

namespace ELearning

/-- Counting the entries strictly below `x` and the entries equal to `x`
together counts the entries at most `x`. -/
theorem length_filter_lt_add_eq (xs : List ℚ) (x : ℚ) :
    (xs.filter (fun y => y < x)).length + (xs.filter (fun y => y = x)).length
      = (xs.filter (fun y => y ≤ x)).length := by
  induction xs with
  | nil => simp
  | cons a as ih =>
    by_cases hlt : a < x
    · have hne : ¬ a = x := ne_of_lt hlt
      simp only [List.filter]
      simp [hlt, hne, le_of_lt hlt, ← ih]
      omega
    · by_cases heq : a = x
      · simp only [List.filter]
        simp [hlt, heq, ← ih]
        omega
      · have hnle : ¬ a ≤ x := fun h => (lt_or_eq_of_le h).elim hlt heq
        simp only [List.filter]
        simp [hlt, heq, hnle, ← ih]

/-- A member of the column occurs at least once among the entries equal to
itself. -/
theorem one_le_count_self {xs : List ℚ} {x : ℚ} (hx : x ∈ xs) :
    1 ≤ (xs.filter (fun y => y = x)).length := by
  have hmem : x ∈ xs.filter (fun y => y = x) :=
    List.mem_filter.mpr ⟨hx, by simp⟩
  exact List.length_pos.mpr (List.ne_nil_of_mem hmem)

/-- The average-rank percentile of a column member is positive. -/
theorem rankPct_pos {xs : List ℚ} {x : ℚ} (hx : x ∈ xs) :
    0 < rankPct xs x := by
  have hn : 0 < xs.length := List.length_pos.mpr (List.ne_nil_of_mem hx)
  have hnq : (0 : ℚ) < (xs.length : ℚ) := by exact_mod_cast hn
  have htq : (1 : ℚ) ≤ ((xs.filter (fun y => y = x)).length : ℚ) := by
    exact_mod_cast one_le_count_self hx
  have haq : (0 : ℚ) ≤ ((xs.filter (fun y => y < x)).length : ℚ) := by positivity
  unfold rankPct
  apply div_pos _ hnq
  linarith

/-- The average-rank percentile of a column member is at most one. -/
theorem rankPct_le_one {xs : List ℚ} {x : ℚ} (hx : x ∈ xs) :
    rankPct xs x ≤ 1 := by
  have hn : 0 < xs.length := List.length_pos.mpr (List.ne_nil_of_mem hx)
  have hsum : (xs.filter (fun y => y < x)).length
      + (xs.filter (fun y => y = x)).length ≤ xs.length := by
    rw [length_filter_lt_add_eq]
    exact List.length_filter_le _ _
  have hsumq : ((xs.filter (fun y => y < x)).length : ℚ)
      + ((xs.filter (fun y => y = x)).length : ℚ) ≤ (xs.length : ℚ) := by
    exact_mod_cast hsum
  have htq : (1 : ℚ) ≤ ((xs.filter (fun y => y = x)).length : ℚ) := by
    exact_mod_cast one_le_count_self hx
  unfold rankPct
  rw [div_le_one (by exact_mod_cast hn)]
  linarith

/-- When a value occurs exactly once in the column, its average-rank
percentile coincides with the fraction of entries at most the value. -/
theorem rankPct_eq_fracLE_of_unique {xs : List ℚ} {x : ℚ}
    (h1 : (xs.filter (fun y => y = x)).length = 1) :
    rankPct xs x = fracLE xs x := by
  unfold rankPct fracLE
  rw [← length_filter_lt_add_eq xs x, h1]
  push_cast
  ring_nf

/-- On a one-element column the percentile rank is 1. -/
theorem rankPct_singleton (x : ℚ) : rankPct [x] x = 1 := by
  unfold rankPct
  norm_num [List.filter, lt_irrefl]

end ELearning

namespace ELearning

/-- C3 counterexample: in the two-row table `tieTable` both courses have 5
participants.  pandas average-rank scoring gives each row
`adoption_score = 3/4`, while the fraction of rows with participants at
most 5 is `1`; the two disagree, so `adoption_score` is not "the fraction
of rows whose participants value is ≤ that row's participants". -/
theorem adoption_score_ne_fracLE_on_tie :
    adoption_score tieTable tieA = 3 / 4
    ∧ fracLE (tieTable.map (fun d => (d.participants : ℚ))) ((tieA.participants : ℕ) : ℚ) = 1
    ∧ (3 / 4 : ℚ) ≠ 1 := by
  refine ⟨?_, ?_, by norm_num⟩
  · norm_num [adoption_score, rankPct, tieTable, tieA, tieB, List.filter]
  · norm_num [fracLE, tieTable, tieA, tieB, List.filter]

/-- C3 (amended): `adoption_score` (resp. `engagement_score`) of a table
row is the pandas average-rank percentile of its participants (resp.
num_reviews) value; it lies in (0,1], coincides with the fraction of rows
whose value is ≤ the row's value whenever that value is unique in its
column, and equals 1 on a single-row table. -/
theorem adoption_score_average_rank (t : List Course) (c : Course) (hc : c ∈ t) :
    (0 < adoption_score t c ∧ adoption_score t c ≤ 1)
    ∧ (0 < engagement_score t c ∧ engagement_score t c ≤ 1)
    ∧ (((t.map (fun d => (d.participants : ℚ))).filter
          (fun y => y = (c.participants : ℚ))).length = 1 →
        adoption_score t c
          = fracLE (t.map (fun d => (d.participants : ℚ))) (c.participants : ℚ))
    ∧ (((t.map (fun d => (d.num_reviews : ℚ))).filter
          (fun y => y = (c.num_reviews : ℚ))).length = 1 →
        engagement_score t c
          = fracLE (t.map (fun d => (d.num_reviews : ℚ))) (c.num_reviews : ℚ))
    ∧ (t.length = 1 → adoption_score t c = 1 ∧ engagement_score t c = 1) := by
  have hp : ((c.participants : ℕ) : ℚ) ∈ t.map (fun d => (d.participants : ℚ)) :=
    List.mem_map_of_mem _ hc
  have hr : ((c.num_reviews : ℕ) : ℚ) ∈ t.map (fun d => (d.num_reviews : ℚ)) :=
    List.mem_map_of_mem _ hc
  refine ⟨⟨rankPct_pos hp, rankPct_le_one hp⟩,
          ⟨rankPct_pos hr, rankPct_le_one hr⟩,
          fun h1 => rankPct_eq_fracLE_of_unique h1,
          fun h1 => rankPct_eq_fracLE_of_unique h1,
          fun hlen => ?_⟩
  rcases List.length_eq_one.mp hlen with ⟨d, rfl⟩
  have hcd : c = d := by simpa using hc
  subst hcd
  constructor
  · simpa [adoption_score] using rankPct_singleton ((c.participants : ℕ) : ℚ)
  · simpa [engagement_score] using rankPct_singleton ((c.num_reviews : ℕ) : ℚ)

/-- Witness for the amended C3 statement: on the specification's one-row
table the sole course is a member and its adoption score is 1. -/
theorem adoption_score_average_rank_witness :
    soloCourse ∈ soloTable ∧ adoption_score soloTable soloCourse = 1 :=
  ⟨by simp [soloTable],
   ((adoption_score_average_rank soloTable soloCourse (by simp [soloTable])).2.2.2.2
      rfl).1⟩

/-- C5: `revenue_per_participant` returns 0 when participants is 0 and the
exact ratio otherwise; being a total function into `ℚ`, it can produce
neither an error nor `NaN`/infinity. -/
theorem revenue_per_participant_guarded (c : Course) :
    (c.participants = 0 → revenue_per_participant c = 0)
    ∧ (c.participants ≠ 0 →
        revenue_per_participant c = c.revenue / (c.participants : ℚ)) := by
  constructor
  · intro h
    simp [revenue_per_participant, h]
  · intro h
    simp [revenue_per_participant, Nat.pos_of_ne_zero h]

/-- Witness for C5: the zero-participants course yields 0, a five-
participant course with revenue 200 yields 40. -/
theorem revenue_per_participant_guarded_witness :
    (soloCourse.participants = 0 ∧ revenue_per_participant soloCourse = 0)
    ∧ (tieB.participants ≠ 0 ∧ revenue_per_participant tieB = 40) := by
  refine ⟨⟨rfl, (revenue_per_participant_guarded soloCourse).1 rfl⟩,
          ⟨by norm_num [tieB], ?_⟩⟩
  rw [(revenue_per_participant_guarded tieB).2 (by norm_num [tieB])]
  norm_num [tieB]

end ELearning

namespace ELearning

/-- C2 counterexample: on the one-course table `exampleTable` (price 100)
the filter `priceRange = [0,0]` leaves no row, and `avg_satisfaction`
then evaluates to `none` — the model of the pandas `NaN` that reaches the
rendered KPI card as the text "nan".  The mean KPIs therefore do not
report a dedicated "no data" state. -/
theorem empty_filter_mean_is_nan :
    df_filtered exampleTable (0, 0) (0, 5) = []
    ∧ avg_satisfaction (df_filtered exampleTable (0, 0) (0, 5)) = none := by
  constructor
  · norm_num [df_filtered, exampleTable, load_data, derive, passFilter, between,
      List.filter]
  · norm_num [df_filtered, exampleTable, load_data, derive, passFilter, between,
      List.filter, avg_satisfaction, seriesMean]

/-- C2 (amended): when every row fails the filter predicates, the filtered
table is empty, the sum KPIs (total revenue, total participants) report
0, and the mean KPIs (average satisfaction, average revenue per
participant, average PES) evaluate to `NaN` (`none`), which is rendered
as-is; no dedicated "no data" state exists. -/
theorem empty_filter_kpis (t : List DRow) (pr sr : ℚ × ℚ)
    (h : ∀ c ∈ t, passFilter pr sr c = false) :
    df_filtered t pr sr = []
    ∧ total_revenue (df_filtered t pr sr) = 0
    ∧ total_participants (df_filtered t pr sr) = 0
    ∧ avg_satisfaction (df_filtered t pr sr) = none
    ∧ avg_roi (df_filtered t pr sr) = none
    ∧ avg_PES (df_filtered t pr sr) = none := by
  have he : df_filtered t pr sr = [] := by
    apply List.filter_eq_nil_iff.mpr
    intro c hc
    simp [h c hc]
  refine ⟨he, ?_, ?_, ?_, ?_, ?_⟩ <;>
    simp [he, total_revenue, total_participants, avg_satisfaction, avg_roi,
      avg_PES, seriesMean]

/-- Witness for the amended C2 statement: the `[0,0]` price filter rejects
the single row of `exampleTable`, and the satisfaction mean over the
resulting empty table is `NaN` (`none`). -/
theorem empty_filter_kpis_witness :
    (∀ c ∈ exampleTable, passFilter (0, 0) (0, 5) c = false)
    ∧ avg_satisfaction (df_filtered exampleTable (0, 0) (0, 5)) = none := by
  have h : ∀ c ∈ exampleTable, passFilter (0, 0) (0, 5) c = false := by
    intro c hc
    have hc' : c = derive [⟨"A", 100, 10, 1000, 4, 5⟩] ⟨"A", 100, 10, 1000, 4, 5⟩ := by
      simpa [exampleTable, load_data] using hc
    subst hc'
    norm_num [passFilter, between, derive]
  exact ⟨h, (empty_filter_kpis exampleTable (0, 0) (0, 5) h).2.2.2.1⟩

/-- C7: both sidebar filters are idempotent — the price/satisfaction range
filter of `elearning_analysis.py` and the category (subject) filter of
`streamlit_app.py` return the same table when applied twice with the same
setting. -/
theorem filter_idempotent :
    (∀ (t : List DRow) (pr sr : ℚ × ℚ),
        df_filtered (df_filtered t pr sr) pr sr = df_filtered t pr sr)
    ∧ (∀ (sel : String) (rows : List CompactApp.Row),
        CompactApp.df_filtered sel (CompactApp.df_filtered sel rows)
          = CompactApp.df_filtered sel rows) := by
  constructor
  · intro t pr sr
    simp [df_filtered, List.filter_filter]
  · intro sel rows
    unfold CompactApp.df_filtered
    by_cases h : sel = "All"
    · simp [h]
    · simp [h, List.filter_filter]

end ELearning

namespace CompactApp

/-- C4 counterexample: the deterministic seed in
`np.random.default_rng(42)` is 42, not 62.5%; the pseudo-random fraction
of revenue is drawn from the interval [0.4, 0.7), whose bounds are also
not 62.5%. -/
theorem rng_seed_is_42 :
    rngSeed = 42 ∧ ((rngSeed : ℚ) ≠ 625 / 1000)
    ∧ fracLo = 2 / 5 ∧ fracHi = 7 / 10 := by
  refine ⟨rfl, ?_, rfl, rfl⟩
  norm_num [rngSeed]

/-- Shifting the draw index through the row-wise synthesis: the j-th
synthesized row uses the (k+j)-th draw applied to the j-th raw row. -/
theorem synthRows_get (u : ℕ → ℚ) :
    ∀ (raw : List RawRow) (k j : ℕ),
      (synthRows u k raw).get? j
        = (raw.get? j).map (fun r => synthRow (u (k + j)) r) := by
  intro raw
  induction raw with
  | nil =>
    intro k j
    simp [synthRows]
  | cons r rs ih =>
    intro k j
    cases j with
    | zero => simp [synthRows]
    | succ j =>
      simp only [synthRows, List.get?_cons_succ, ih (k + 1) j]
      have : k + 1 + j = k + (j + 1) := by omega
      rw [this]

/-- C4 (amended): when the loaded csv has no "ROI" column, the i-th row's
`program_cost` is its revenue times the i-th pseudo-random draw of the
uniform stream (seeded with 42, bounds [0.4, 0.7)), and its `ROI` is
`(revenue - program_cost) / program_cost`. -/
theorem synthetic_roi (u : ℕ → ℚ) (raw : List RawRow) (i : ℕ)
    (rr : RawRow) (h : raw.get? i = some rr) :
    (withSyntheticROI u raw).get? i = some (synthRow (u i) rr)
    ∧ (synthRow (u i) rr).program_cost = rr.revenue * u i
    ∧ (synthRow (u i) rr).ROI
        = (rr.revenue - (synthRow (u i) rr).program_cost)
            / (synthRow (u i) rr).program_cost := by
  refine ⟨?_, rfl, rfl⟩
  rw [withSyntheticROI, synthRows_get u raw 0 i, h]
  simp

/-- Witness for the amended C4 statement at a one-row table and the
constant draw 1/2. -/
theorem synthetic_roi_witness :
    ([exampleRaw].get? 0 = some exampleRaw)
    ∧ (withSyntheticROI (fun _ => (1 : ℚ) / 2) [exampleRaw]).get? 0
        = some (synthRow ((1 : ℚ) / 2) exampleRaw) :=
  ⟨rfl, (synthetic_roi (fun _ => (1 : ℚ) / 2) [exampleRaw] 0 exampleRaw rfl).1⟩

/-- Any row surviving `load_data` has a subject other than "Other". -/
theorem subject_ne_other_of_mem_load {u : ℕ → ℚ} {raw : List RawRow}
    {r : Row} (hr : r ∈ load_data u raw) : r.subject ≠ "Other" := by
  have h2 := (List.mem_filter.mp hr).2
  simpa using h2

/-- C10: `load_data` drops every row whose subject is "Other" before the
sidebar filter runs, so neither the loaded table nor the filtered table
that all KPIs, groupings and charts consume ever contains such a row. -/
theorem no_other_subject_rows (u : ℕ → ℚ) (raw : List RawRow)
    (sel : String) (r : Row) :
    (r ∈ load_data u raw → r.subject ≠ "Other")
    ∧ (r ∈ df_filtered sel (load_data u raw) → r.subject ≠ "Other") := by
  constructor
  · exact fun hr => subject_ne_other_of_mem_load hr
  · intro hr
    unfold df_filtered at hr
    by_cases h : sel = "All"
    · rw [if_pos h] at hr
      exact subject_ne_other_of_mem_load hr
    · rw [if_neg h] at hr
      exact subject_ne_other_of_mem_load (List.mem_filter.mp hr).1

/-- Witness for C10: the loaded row of the one-row "Python" table is in
the "All"-filtered view and its subject is not "Other". -/
theorem no_other_subject_rows_witness :
    synthRow ((1 : ℚ) / 2) exampleRaw
        ∈ df_filtered "All" (load_data (fun _ => (1 : ℚ) / 2) [exampleRaw])
    ∧ (synthRow ((1 : ℚ) / 2) exampleRaw).subject ≠ "Other" := by
  have hm : synthRow ((1 : ℚ) / 2) exampleRaw
      ∈ df_filtered "All" (load_data (fun _ => (1 : ℚ) / 2) [exampleRaw]) := by
    simp [df_filtered, load_data, withSyntheticROI, synthRows, synthRow,
      exampleRaw, List.filter]
  exact ⟨hm,
    (no_other_subject_rows (fun _ => (1 : ℚ) / 2) [exampleRaw] "All"
        (synthRow ((1 : ℚ) / 2) exampleRaw)).2 hm⟩

end CompactApp

namespace Forecasting

/-- C9: on an empty series the slope/intercept block raises: the length
guard `len(ts) > 1` fails, and the fallback `ts["revenue"].iloc[0]`
indexes an empty frame (`none` models the `IndexError`); a one-point
series, by contrast, does fall back to slope 0 and the constant value. -/
theorem slopeIntercept_empty_raises :
    slopeIntercept ([] : List ℚ) = none
    ∧ slopeIntercept [(5 : ℚ)] = some (0, 5) :=
  ⟨rfl, rfl⟩

/-- C6 evaluation at the failing inputs: the button handler reports
"Slack alert sent successfully!" even when the POST returned HTTP 404,
and a network exception propagates uncaught (no failure indicator is
produced by the app; the script run aborts with a traceback). -/
theorem alert_flow_ignores_outcome :
    alert_flow (Except.ok 404) = Except.ok "Slack alert sent successfully!"
    ∧ alert_flow (Except.error "connection refused")
        = Except.error "connection refused" :=
  ⟨rfl, rfl⟩

/-- The sample variance is a quotient of a sum of squares by a
non-negative cast, hence non-negative. -/
theorem sampleVar_nonneg (ys : List ℚ) : 0 ≤ sampleVar ys := by
  unfold sampleVar
  apply div_nonneg
  · apply List.sum_nonneg
    intro a ha
    rcases List.mem_map.mp ha with ⟨y, _, rfl⟩
    positivity
  · positivity

/-- When the sample variance is nonzero, the fallback branch of `std_rev`
is not taken: the standard deviation used by the z-score is exactly the
square root of the ddof = 1 variance. -/
theorem std_rev_of_var_ne {ys : List ℚ} (hv : sampleVar ys ≠ 0) :
    std_rev ys = Real.sqrt ((sampleVar ys : ℚ) : ℝ) := by
  have hq : (0 : ℚ) < sampleVar ys := lt_of_le_of_ne (sampleVar_nonneg ys) (Ne.symm hv)
  have hpos : (0 : ℝ) < ((sampleVar ys : ℚ) : ℝ) := by exact_mod_cast hq
  unfold std_rev ts_std
  rw [if_pos (Real.sqrt_ne_zero'.mpr hpos)]

/-- C8: the detector's standard deviation is the sample standard
deviation.  For a series of length at least 2 whose `ddof = 1` variance
(`sampleVar`, sum of squared deviations over n−1) is nonzero, every
point's z-score is the point's deviation from the mean divided by the
square root of that sample variance. -/
theorem z_score_uses_sample_std (ys : List ℚ) (i : ℕ)
    (hlen : 2 ≤ ys.length) (hv : sampleVar ys ≠ 0) :
    z_score ys i
      = ((ys.getD i 0 - mean_rev ys : ℚ) : ℝ)
          / Real.sqrt ((sampleVar ys : ℚ) : ℝ) := by
  have _hlen := hlen
  unfold z_score
  rw [std_rev_of_var_ne hv]

/-- Witness for C8 on the two-point series `[0, 2]` at its second point. -/
theorem z_score_uses_sample_std_witness :
    2 ≤ pairSeries.length ∧ sampleVar pairSeries ≠ 0
    ∧ z_score pairSeries 1
        = ((pairSeries.getD 1 0 - mean_rev pairSeries : ℚ) : ℝ)
            / Real.sqrt ((sampleVar pairSeries : ℚ) : ℝ) := by
  have h1 : 2 ≤ pairSeries.length := by norm_num [pairSeries]
  have h2 : sampleVar pairSeries ≠ 0 := by
    norm_num [sampleVar, mean_rev, pairSeries]
  exact ⟨h1, h2, z_score_uses_sample_std pairSeries 1 h1 h2⟩

end Forecasting

namespace Forecasting

/-- The mean of the example series is 180. -/
theorem mean_exampleSeries : mean_rev exampleSeries = 180 := by
  norm_num [mean_rev, exampleSeries]

/-- The ddof = 1 variance of the example series is 128000/4 = 32000. -/
theorem var_exampleSeries : sampleVar exampleSeries = 32000 := by
  norm_num [sampleVar, mean_rev, exampleSeries]

/-- The detector's standard deviation on the example series is √32000. -/
theorem std_exampleSeries : std_rev exampleSeries = Real.sqrt 32000 := by
  rw [std_rev_of_var_ne (by rw [var_exampleSeries]; norm_num), var_exampleSeries]
  norm_num

/-- √32000 exceeds 178 (so the sample standard deviation is ≈ 178.9, not
the population value 160). -/
theorem std_exampleSeries_gt : (178 : ℝ) < std_rev exampleSeries := by
  rw [std_exampleSeries]
  exact (Real.lt_sqrt (by norm_num)).mpr (by norm_num)

/-- √32000 is below 179. -/
theorem std_exampleSeries_lt : std_rev exampleSeries < 179 := by
  rw [std_exampleSeries]
  exact (Real.sqrt_lt' (by norm_num)).mpr (by norm_num)

/-- The last point's z-score on the example series is 320/√32000. -/
theorem z_last_exampleSeries :
    z_score exampleSeries 4 = 320 / Real.sqrt 32000 := by
  unfold z_score
  rw [std_exampleSeries]
  norm_num [mean_rev, exampleSeries]

/-- The last point's z-score is at most 2 (in fact ≈ 1.79): 320 ≤ 2·√32000
because 160 < √32000. -/
theorem z_last_exampleSeries_le_two : z_score exampleSeries 4 ≤ 2 := by
  rw [z_last_exampleSeries]
  rw [div_le_iff₀ (Real.sqrt_pos.mpr (by norm_num))]
  have h : (160 : ℝ) < Real.sqrt 32000 :=
    (Real.lt_sqrt (by norm_num)).mpr (by norm_num)
  linarith

/-- The most recent point of the example series is not flagged. -/
theorem exampleSeries_last_not_anomaly : ¬ last_is_anomaly exampleSeries := by
  unfold last_is_anomaly anomaly
  have hlen : exampleSeries.length - 1 = 4 := rfl
  rw [hlen]
  intro h
  have hpos : 0 < z_score exampleSeries 4 := by
    rw [z_last_exampleSeries]
    exact div_pos (by norm_num) (Real.sqrt_pos.mpr (by norm_num))
  rw [abs_of_pos hpos] at h
  exact absurd z_last_exampleSeries_le_two (not_le.mpr h)

/-- C1 counterexample: on `[100,100,100,100,500]` the detector's mean is
180 but its standard deviation is the sample (ddof = 1) value √32000 >
178 — not ≈ 160 — the last point's z-score 320/√32000 ≈ 1.79 does not
exceed 2, and the last point is NOT flagged anomalous. -/
theorem exampleSeries_not_flagged :
    mean_rev exampleSeries = 180
    ∧ (178 : ℝ) < std_rev exampleSeries
    ∧ z_score exampleSeries 4 ≤ 2
    ∧ ¬ last_is_anomaly exampleSeries :=
  ⟨mean_exampleSeries, std_exampleSeries_gt, z_last_exampleSeries_le_two,
   exampleSeries_last_not_anomaly⟩

/-- C1 (amended): for the series `[100,100,100,100,500]` the detector
computes mean 180 and the sample standard deviation √32000 ≈ 178.9
(pandas `ddof = 1`, not the population value 160); the last point's
z-score ≈ 1.79 does not exceed 2, so the point is not flagged anomalous;
the percentage deviation from the mean is +1600/9 ≈ +177.8 %, so the
directional label the insight code would compute for it is the spike
label. -/
theorem exampleSeries_sample_std_behaviour :
    mean_rev exampleSeries = 180
    ∧ std_rev exampleSeries = Real.sqrt 32000
    ∧ (178 : ℝ) < std_rev exampleSeries
    ∧ std_rev exampleSeries < 179
    ∧ ¬ last_is_anomaly exampleSeries
    ∧ diff_pct exampleSeries = 1600 / 9
    ∧ 0 < diff_pct exampleSeries
    ∧ direction exampleSeries = "Revenue spiked unexpectedly" := by
  have hdiff : diff_pct exampleSeries = 1600 / 9 := by
    norm_num [diff_pct, mean_rev, exampleSeries]
  refine ⟨mean_exampleSeries, std_exampleSeries, std_exampleSeries_gt,
    std_exampleSeries_lt, exampleSeries_last_not_anomaly, hdiff,
    by rw [hdiff]; norm_num, ?_⟩
  rw [direction, if_neg]
  rw [hdiff]
  norm_num

end Forecasting
